import Mathlib

/-!
Verification of the Discharge-Prescription-Form repository.

The repository has two source files: `src/unnamed/part_000` (the App.js
variant with form validation, conditional dosage substructure and a
conditional Binary attachment) and `src/src/gpt.js` (a variant with a
medication-code branch and offset-bearing timestamps).  The definitions
below are shallow embeddings of the functions of those files; stateful
pieces (the uuid counter, the current clock) are made explicit parameters.
-/

namespace DischargeRx

/-! ### Line diff engine (`lineDiff`, src/unnamed/part_000 lines 28-39) -/

/-- Embedding of JavaScript `str.split("\n")` on the character list of a
string: splits at every newline character; the empty text yields one empty
line.  The `[] => [[c]]` inner branch is unreachable because `splitLines`
never returns the empty list. -/
def splitLines : List Char → List (List Char)
  | [] => [[]]
  | c :: rest =>
    match splitLines rest with
    | [] => [[c]]
    | l :: ls => if c = '\n' then [] :: l :: ls else (c :: l) :: ls

/-- The lines of a string, as strings (JS `leftStr.split("\n")`). -/
def linesOf (s : String) : List String :=
  (splitLines s.data).map (fun cs => String.mk cs)

/-- The number of lines of a text (length of its split). -/
def lineCount (s : String) : Nat :=
  (linesOf s).length

/-- One row of the diff result: `{ leftLine, rightLine, same }`. -/
structure DiffRow where
  leftLine : String
  rightLine : String
  same : Bool
deriving DecidableEq, Repr

/-- Embedding of `lineDiff` (src/unnamed/part_000 lines 28-39): positional
row-by-row comparison, `left[i] ?? ""` modelled by `getD i ""`. -/
def lineDiff (leftStr rightStr : String) : List DiffRow :=
  let left := linesOf leftStr
  let right := linesOf rightStr
  let mx := max left.length right.length
  (List.range mx).map (fun i =>
    { leftLine := left.getD i ""
      rightLine := right.getD i ""
      same := left.getD i "" == right.getD i "" })

/-! ### Identifier generator (`uuidv4`, both files) -/

/-- Embedding of `Number.prototype.toString(16)` for one nibble. -/
def hexChar : Nat → Char
  | 0 => '0' | 1 => '1' | 2 => '2' | 3 => '3'
  | 4 => '4' | 5 => '5' | 6 => '6' | 7 => '7'
  | 8 => '8' | 9 => '9' | 10 => 'a' | 11 => 'b'
  | 12 => 'c' | 13 => 'd' | 14 => 'e' | 15 => 'f'
  | _ => '?'

/-- The uuid template string `"xxxxxxxx-xxxx-4xxx-yxxx-xxxxxxxxxxxx"`. -/
def uuidTemplate : List Char :=
  "xxxxxxxx-xxxx-4xxx-yxxx-xxxxxxxxxxxx".data

/-- Embedding of the `replace(/[xy]/g, ...)` callback of `uuidv4`: the
`k`-th matched character consumes the `k`-th value of the random source
`rand` (modelling `(Math.random() * 16) | 0`); an `x` becomes `r.toString(16)`
and a `y` becomes `((r & 0x3) | 0x8).toString(16)`. -/
def uuidReplace : List Char → (Nat → Fin 16) → Nat → List Char
  | [], _, _ => []
  | c :: rest, rand, k =>
    if c = 'x' then hexChar (rand k).val :: uuidReplace rest rand (k + 1)
    else if c = 'y' then hexChar (((rand k).val &&& 3) ||| 8) :: uuidReplace rest rand (k + 1)
    else c :: uuidReplace rest rand k

/-- Embedding of `uuidv4` (src/unnamed/part_000 lines 11-17 and
src/src/gpt.js lines 7-13), parameterised by the random source. -/
def uuidv4 (rand : Nat → Fin 16) : String :=
  String.mk (uuidReplace uuidTemplate rand 0)

/-- A lowercase hexadecimal digit. -/
def isHexChar (c : Char) : Bool :=
  ('0' ≤ c && c ≤ '9') || ('a' ≤ c && c ≤ 'f')

/-- All characters of a list are hexadecimal digits. -/
def allHex (cs : List Char) : Bool :=
  cs.all isHexChar

/-- The canonical 8-4-4-4-12 lowercase-hex uuid format with version nibble
`4` and variant nibble in `{8,9,a,b}`. -/
def uuidFormatOk (s : String) : Bool :=
  let d := s.data
  (d.length == 36)
  && allHex (d.take 8) && (d.getD 8 '?' == '-')
  && allHex ((d.drop 9).take 4) && (d.getD 13 '?' == '-')
  && (d.getD 14 '?' == '4') && allHex ((d.drop 15).take 3)
  && (d.getD 18 '?' == '-')
  && (['8', '9', 'a', 'b'] : List Char).contains (d.getD 19 '?')
  && allHex ((d.drop 20).take 3) && (d.getD 23 '?' == '-')
  && allHex (d.drop 24)

/-! ### Offset timestamps (`getISOWithOffset`, src/src/gpt.js lines 16-25) -/

/-- Embedding of JS `String(n).padStart(2, "0")` for our (never-empty)
decimal renderings. -/
def padStart2 (s : String) : String :=
  if 2 ≤ s.length then s else if s.length = 1 then "0" ++ s else "00"

/-- The replacement text for the `"Z"` marker: sign, two-digit hours,
colon, two-digit minutes, exactly as built by `getISOWithOffset`
(`tzOffsetMin` is `d.getTimezoneOffset()`, positive west of UTC). -/
def tzOffsetRepl (tzOffsetMin : Int) : List Char :=
  let sign : Char := if tzOffsetMin > 0 then '-' else '+'
  sign :: (padStart2 (toString (tzOffsetMin.natAbs / 60))).data
    ++ ':' :: (padStart2 (toString (tzOffsetMin.natAbs % 60))).data

/-- Embedding of JS `str.replace("Z", repl)`: replaces the first
occurrence of the character `Z`. -/
def replaceFirstZ : List Char → List Char → List Char
  | [], _ => []
  | c :: rest, repl => if c = 'Z' then repl ++ rest else c :: replaceFirstZ rest repl

/-- Embedding of `getISOWithOffset`: the argument `isoUtc` models
`d.toISOString()` (a UTC ISO-8601 string ending in `'Z'`), and the result
replaces that `Z` with the signed local offset. -/
def getISOWithOffset (isoUtc : List Char) (tzOffsetMin : Int) : List Char :=
  replaceFirstZ isoUtc (tzOffsetRepl tzOffsetMin)

/-- Last character of a character list (for "ends with `Z`" statements). -/
def lastChar : List Char → Option Char
  | [] => none
  | [c] => some c
  | _ :: c :: rest => lastChar (c :: rest)

/-! ### Form state (the React state of src/unnamed/part_000) -/

/-- Practitioner form fields. -/
structure Practitioner where
  name : String
  license : String
deriving DecidableEq, Repr

/-- Patient form fields. -/
structure Patient where
  name : String
  mrn : String
  birthDate : String
  gender : String
  phone : String
deriving DecidableEq, Repr

/-- Condition / diagnosis form fields. -/
structure Condition where
  text : String
  code : String
  clinicalStatus : String
deriving DecidableEq, Repr

/-- Prescription (Composition) form fields. -/
structure Composition where
  title : String
  status : String
  date : String
deriving DecidableEq, Repr

/-- One medication form row.  `frequency`/`period` model the JS
`Number | null` fields; empty strings model cleared text/select inputs. -/
structure Medication where
  medicationText : String
  dosageText : String
  additionalInstruction : String
  frequency : Option Nat
  period : Option Nat
  periodUnit : String
  route : String
  method : String
  reason : String
  authoredOn : String
deriving DecidableEq, Repr

/-- The whole form state consumed by `buildBundle`. -/
structure FormState where
  practitioner : Practitioner
  patient : Patient
  condition : Condition
  composition : Composition
  medications : List Medication
  attachmentBase64 : Option String
deriving DecidableEq, Repr

/-! ### FHIR-shaped output records (the objects built by `buildBundle`) -/

/-- A `{reference, display}` pair. -/
structure RefDisplay where
  reference : String
  display : String
deriving DecidableEq, Repr

/-- A `{reference, type}` pair (Composition section entry). -/
structure SectionEntry where
  reference : String
  type : String
deriving DecidableEq, Repr

/-- A `{system, code, display}` coding. -/
structure Coding where
  system : String
  code : String
  display : String
deriving DecidableEq, Repr

/-- A codeable concept: optional coding list and optional free text. -/
structure CodeableConcept where
  coding : Option (List Coding)
  text : Option String
deriving DecidableEq, Repr

/-- The `timing.repeat` sub-block of a dosage. -/
structure TimingRepeat where
  frequency : Option Nat
  period : Option Nat
  periodUnit : String
deriving DecidableEq, Repr

/-- One `dosageInstruction` element with its conditional sub-blocks. -/
structure Dosage where
  text : String
  additionalInstruction : Option (List CodeableConcept)
  timing : Option TimingRepeat
  route : Option CodeableConcept
  method : Option CodeableConcept
deriving DecidableEq, Repr

/-- The Composition (header) resource. -/
structure CompositionRes where
  id : String
  textDiv : String
  identifierValue : String
  status : String
  subject : RefDisplay
  date : String
  author : List RefDisplay
  title : String
  sectionEntries : List SectionEntry
deriving DecidableEq, Repr

/-- The Patient resource. -/
structure PatientRes where
  id : String
  textDiv : String
  mrn : String
  name : String
  phone : String
  gender : String
  birthDate : String
deriving DecidableEq, Repr

/-- The Practitioner resource. -/
structure PractitionerRes where
  id : String
  textDiv : String
  license : String
  name : String
deriving DecidableEq, Repr

/-- A MedicationRequest resource. -/
structure MedReqRes where
  id : String
  textDiv : String
  medicationCodeableConcept : Option CodeableConcept
  subject : RefDisplay
  authoredOn : String
  requester : RefDisplay
  reasonCode : List CodeableConcept
  reasonReference : List RefDisplay
  dosageInstruction : List Dosage
deriving DecidableEq, Repr

/-- The Condition resource. -/
structure ConditionRes where
  id : String
  textDiv : String
  clinicalStatus : CodeableConcept
  code : CodeableConcept
  subject : RefDisplay
deriving DecidableEq, Repr

/-- The Binary (attachment) resource. -/
structure BinaryRes where
  id : String
  contentType : String
  data : String
deriving DecidableEq, Repr

/-- A bundle entry resource, tagged by `resourceType`. -/
inductive Resource where
  | composition (r : CompositionRes)
  | patient (r : PatientRes)
  | practitioner (r : PractitionerRes)
  | medicationRequest (r : MedReqRes)
  | condition (r : ConditionRes)
  | binary (r : BinaryRes)
deriving DecidableEq, Repr

/-- The resource kinds, for ordering statements. -/
inductive RKind where
  | composition
  | patient
  | practitioner
  | medicationRequest
  | condition
  | binary
deriving DecidableEq, Repr

/-- The `resourceType` tag of a resource. -/
def Resource.kind : Resource → RKind
  | .composition _ => .composition
  | .patient _ => .patient
  | .practitioner _ => .practitioner
  | .medicationRequest _ => .medicationRequest
  | .condition _ => .condition
  | .binary _ => .binary

/-- All `urn:uuid:` reference strings embedded in a resource (its
`subject`, `author`, section entries, `requester` and `reasonReference`
fields; Patient, Practitioner and Binary resources embed none). -/
def Resource.refs : Resource → List String
  | .composition r =>
      r.subject.reference :: r.author.map (fun a => a.reference)
        ++ r.sectionEntries.map (fun s => s.reference)
  | .patient _ => []
  | .practitioner _ => []
  | .medicationRequest r =>
      r.subject.reference :: r.requester.reference
        :: r.reasonReference.map (fun a => a.reference)
  | .condition r => [r.subject.reference]
  | .binary _ => []

/-- A `{fullUrl, resource}` bundle entry. -/
structure Entry where
  fullUrl : String
  resource : Resource
deriving DecidableEq, Repr

/-- The assembled document bundle (envelope plus entry list). -/
structure Bundle where
  id : String
  versionId : String
  lastUpdated : String
  identifierSystem : String
  identifierValue : String
  type : String
  timestamp : String
  entry : List Entry
deriving DecidableEq, Repr

/-- `urn:uuid:` wrapping of an identifier. -/
def urn (id : String) : String :=
  "urn:uuid:" ++ id

/-- All reference strings appearing in any record of a bundle. -/
def bundleRefs (b : Bundle) : List String :=
  (b.entry.map (fun e => e.resource)).flatMap Resource.refs

/-! ### Validation (src/unnamed/part_000 lines 194-215)

The JS code throws on the first failing check; each check tests JS string
truthiness, i.e. non-emptiness. -/

/-- The per-medication loop of the validation block: the first medication
with a missing drug name or dosage instruction produces the error message
with its 1-based position. -/
def firstBadMed : List Medication → Nat → Option String
  | [], _ => none
  | m :: rest, idx =>
    if m.medicationText = "" || m.dosageText = "" then
      some ("Medication #" ++ toString (idx + 1)
        ++ ": Drug name and Dosage Instructions are required.")
    else firstBadMed rest (idx + 1)

/-- The validation gate of `buildBundle`: returns the message of the first
violated rule, or `none` when the form state is complete. -/
def validateFS (fs : FormState) : Option String :=
  if fs.practitioner.name = "" || fs.practitioner.license = "" then
    some "Practitioner name and license are required."
  else if fs.patient.name = "" || fs.patient.mrn = "" || fs.patient.birthDate = "" then
    some "Patient name, MRN and DOB are required."
  else if fs.condition.text = "" then
    some "Condition/Diagnosis is required."
  else if fs.composition.title = "" || fs.composition.date = "" || fs.composition.status = "" then
    some "Prescription title, date and status are required."
  else if fs.medications.isEmpty then
    some "Add at least one medication."
  else firstBadMed fs.medications 0

/-! ### Record construction (src/unnamed/part_000 lines 217-549)

Identifier generation (`uuidv4()` calls) is modelled by an abstract supply
`gen : Nat → String` consumed at successive indices starting from a
counter `c0`, in the exact evaluation order of the source: compId,
patientId, practitionerId, conditionId, one id per medication, the binary
id (only when an attachment is present), then the bundle identifier value,
the composition identifier value and the bundle id suffix.  The current
clock (`new Date().toISOString()`) is the explicit parameter `nowIso`. -/

/-- JS truthiness of a `Number | null` field: `null` and `0` are falsy. -/
def truthyN : Option Nat → Bool
  | none => false
  | some n => n != 0

/-- Embedding of the dosage object built for one medication
(src/unnamed/part_000 lines 373-424): each sub-block is attached only when
its source field is truthy. -/
def mkDosage (m : Medication) : Dosage :=
  { text := m.dosageText
    additionalInstruction :=
      if m.additionalInstruction ≠ "" then
        some [{ coding := some [⟨"http://snomed.info/sct", "311504000", m.additionalInstruction⟩], text := none }]
      else none
    timing :=
      if truthyN m.frequency || truthyN m.period then
        some { frequency := if truthyN m.frequency then m.frequency else none
               period := if truthyN m.period then m.period else none
               periodUnit := if m.periodUnit ≠ "" then m.periodUnit else "d" }
      else none
    route :=
      if m.route ≠ "" then
        some { coding := some [⟨"http://snomed.info/sct", "26643006", m.route⟩], text := none }
      else none
    method :=
      if m.method ≠ "" then
        some { coding := some [⟨"http://snomed.info/sct", "421521009", m.method⟩], text := none }
      else none }

/-- Embedding of one MedicationRequest resource
(src/unnamed/part_000 lines 426-453). -/
def mkMedRes (fs : FormState) (patientId practitionerId conditionId medId : String)
    (m : Medication) : MedReqRes :=
  { id := medId
    textDiv := "<div><p>MedicationRequest " ++ medId ++ "</p><p>medication: "
      ++ m.medicationText ++ "</p><p>dosage: " ++ m.dosageText ++ "</p></div>"
    medicationCodeableConcept :=
      if m.medicationText ≠ "" then some { coding := none, text := some m.medicationText }
      else none
    subject := ⟨urn patientId, fs.patient.name⟩
    authoredOn := if m.authoredOn ≠ "" then m.authoredOn else fs.composition.date
    requester := ⟨urn practitionerId, fs.practitioner.name⟩
    reasonCode :=
      [{ coding := some [⟨"http://snomed.info/sct", (if fs.condition.code ≠ "" then fs.condition.code else "unknown"), fs.condition.text⟩], text := none }]
    reasonReference := [⟨urn conditionId, "Condition"⟩]
    dosageInstruction := [mkDosage m] }

/-- Number of identifiers drawn for the optional attachment. -/
def attCount (fs : FormState) : Nat :=
  if fs.attachmentBase64.isSome then 1 else 0

/-- Embedding of the assembly part of `buildBundle`
(src/unnamed/part_000 lines 217-549), evaluated only after validation
passes: builds every resource and concatenates the entry list in the
source's push order (Composition, Patient, Practitioner, one
MedicationRequest per input medication in input order, Condition, and the
Binary only when an attachment is present). -/
def mkBundle (fs : FormState) (gen : Nat → String) (nowIso : String) (c0 : Nat) : Bundle :=
  let n := fs.medications.length
  let a := attCount fs
  let compId := gen c0
  let patientId := gen (c0 + 1)
  let practitionerId := gen (c0 + 2)
  let conditionId := gen (c0 + 3)
  let medReqId : Nat → String := fun i => gen (c0 + 4 + i)
  let binaryId := gen (c0 + 4 + n)
  let bundleIdentifierValue := gen (c0 + 4 + n + a)
  let compIdentifierValue := gen (c0 + 5 + n + a)
  let bundleUuid := gen (c0 + 6 + n + a)
  let compositionResource : CompositionRes :=
    { id := compId
      textDiv := "<div><p>Generated Narrative: Composition " ++ compId
        ++ "</p><p>identifier: http://hip.in/" ++ bundleIdentifierValue
        ++ "</p><p>status: " ++ fs.composition.status
        ++ "</p><p>date: " ++ fs.composition.date ++ "</p></div>"
      identifierValue := compIdentifierValue
      status := if fs.composition.status = "final" then "final" else fs.composition.status
      subject := ⟨urn patientId, fs.patient.name⟩
      date := fs.composition.date
      author := [⟨urn practitionerId, fs.practitioner.name⟩]
      title := fs.composition.title
      sectionEntries :=
        fs.medications.enum.map
          (fun p => (⟨urn (medReqId p.1), "MedicationRequest"⟩ : SectionEntry))
        ++ (if fs.attachmentBase64.isSome then [⟨urn binaryId, "Binary"⟩] else []) }
  let patientResource : PatientRes :=
    { id := patientId
      textDiv := "<div><p>Patient " ++ fs.patient.name ++ ", DoB: "
        ++ fs.patient.birthDate ++ "</p></div>"
      mrn := fs.patient.mrn
      name := fs.patient.name
      phone := fs.patient.phone
      gender := fs.patient.gender
      birthDate := fs.patient.birthDate }
  let practitionerResource : PractitionerRes :=
    { id := practitionerId
      textDiv := "<div><p>Practitioner " ++ fs.practitioner.name ++ "</p></div>"
      license := fs.practitioner.license
      name := fs.practitioner.name }
  let medicationResources : List MedReqRes :=
    fs.medications.enum.map
      (fun p => mkMedRes fs patientId practitionerId conditionId (medReqId p.1) p.2)
  let conditionResource : ConditionRes :=
    { id := conditionId
      textDiv := "<div><p>Condition " ++ fs.condition.text ++ "</p></div>"
      clinicalStatus :=
        { coding := some [⟨"http://terminology.hl7.org/CodeSystem/condition-clinical", (if fs.condition.clinicalStatus ≠ "" then fs.condition.clinicalStatus else "active"), (if fs.condition.clinicalStatus ≠ "" then fs.condition.clinicalStatus else "Active")⟩], text := none }
      code :=
        { coding := some [⟨"http://snomed.info/sct", (if fs.condition.code ≠ "" then fs.condition.code else "21522001"), fs.condition.text⟩], text := some fs.condition.text }
      subject := ⟨urn patientId, fs.patient.name⟩ }
  let entries : List Entry :=
    [⟨urn compId, .composition compositionResource⟩,
     ⟨urn patientId, .patient patientResource⟩,
     ⟨urn practitionerId, .practitioner practitionerResource⟩]
    ++ medicationResources.map (fun mr => ⟨urn mr.id, .medicationRequest mr⟩)
    ++ [⟨urn conditionId, .condition conditionResource⟩]
    ++ (match fs.attachmentBase64 with
        | some b64 => [⟨urn binaryId, .binary ⟨binaryId, "application/pdf", b64⟩⟩]
        | none => [])
  { id := "Prescription-" ++ bundleUuid
    versionId := "1"
    lastUpdated := nowIso
    identifierSystem := "http://hip.in"
    identifierValue := bundleIdentifierValue
    type := "document"
    timestamp := nowIso
    entry := entries }

/-- Embedding of the whole `buildBundle` handler
(src/unnamed/part_000 lines 190-559): the validation block runs first and
a thrown error aborts the run before any `uuidv4()` call, so the returned
counter equals the initial one on rejection.  On success the counter has
advanced by the `7 + n + attachment` identifiers drawn. -/
def buildBundle (fs : FormState) (gen : Nat → String) (nowIso : String) (c0 : Nat) :
    Except String Bundle × Nat :=
  match validateFS fs with
  | some e => (.error e, c0)
  | none => (.ok (mkBundle fs gen nowIso c0), c0 + 7 + fs.medications.length + attCount fs)

/-! ### The gpt.js medication representation (src/src/gpt.js lines 240-243) -/

/-- Embedding of JS `String.prototype.trim()`: strips leading and trailing
whitespace characters. -/
def jsTrim (s : String) : String :=
  String.mk (((s.data.dropWhile Char.isWhitespace).reverse.dropWhile Char.isWhitespace).reverse)

/-- Embedding of the gpt.js `medicationCodeableConcept` expression:
`m.medicationCode && m.medicationCode.trim() !== "" ? { coding: [...] } :
{ text: m.medicationText }`.  `none` models an absent `medicationCode`
property. -/
def gptMedicationConcept (medicationCode : Option String) (medicationText : String) :
    CodeableConcept :=
  match medicationCode with
  | some c =>
    if c ≠ "" ∧ jsTrim c ≠ "" then
      { coding := some [⟨"http://snomed.info/sct", jsTrim c, medicationText⟩], text := none }
    else { coding := none, text := some medicationText }
  | none => { coding := none, text := some medicationText }

/-! ### Concrete fixtures used by witnesses and counterexamples -/

/-- A valid medication row (the first default row of the form). -/
def med0 : Medication :=
  { medicationText := "Azithromycin 250 mg oral tablet"
    dosageText := "One tablet at once"
    additionalInstruction := "With or after food"
    frequency := some 1
    period := some 1
    periodUnit := "d"
    route := "Oral Route"
    method := "Swallow"
    reason := "Abdominal pain"
    authoredOn := "2026-10-12" }

/-- A valid form state (the form's default values, one medication, no
attachment). -/
def fs0 : FormState :=
  { practitioner := ⟨"Dr. DEF", "21-1521-3828-3227"⟩
    patient := ⟨"ABC", "22-7225-4829-5255", "1981-01-12", "male", "+919818512600"⟩
    condition := ⟨"Abdominal pain", "21522001", "active"⟩
    composition := ⟨"Prescription record", "final", "2026-10-12"⟩
    medications := [med0]
    attachmentBase64 := none }

/-- An injective identifier supply for witnesses. -/
def gen0 (n : Nat) : String :=
  String.mk (List.replicate n 'a')

theorem gen0_injective : Function.Injective gen0 := by
  intro a b h
  have h2 := congrArg (fun s : String => s.data.length) h
  simpa [gen0] using h2

/-- A medication row whose frequency is the number `0` (enterable in the
form's number input) and whose period is `null`. -/
def medFreqZero : Medication :=
  ⟨"Drug A", "Take once", "", some 0, none, "d", "", "", "", ""⟩

/-- A form state violating two completeness rules at once: empty
practitioner name and empty diagnosis text. -/
def fsTwoBad : FormState :=
  { practitioner := ⟨"", "21-1521-3828-3227"⟩
    patient := ⟨"ABC", "22-7225-4829-5255", "1981-01-12", "male", "+919818512600"⟩
    condition := ⟨"", "21522001", "active"⟩
    composition := ⟨"Prescription record", "final", "2026-10-12"⟩
    medications := [med0]
    attachmentBase64 := none }

/-- A form state whose only violation is an empty patient name. -/
def fsBadPatient : FormState :=
  { practitioner := ⟨"Dr. DEF", "21-1521-3828-3227"⟩
    patient := ⟨"", "22-7225-4829-5255", "1981-01-12", "male", "+919818512600"⟩
    condition := ⟨"Abdominal pain", "21522001", "active"⟩
    composition := ⟨"Prescription record", "final", "2026-10-12"⟩
    medications := [med0]
    attachmentBase64 := none }

/-- Substring test on character lists (used to show an error message does
not mention a rule). -/
def listContains (pat : List Char) : List Char → Bool
  | [] => pat.isEmpty
  | c :: rest => pat.isPrefixOf (c :: rest) || listContains pat rest

/-! ### Supporting lemmas -/

lemma splitLines_length_pos (cs : List Char) : 0 < (splitLines cs).length := by
  induction cs with
  | nil => simp [splitLines]
  | cons c rest ih =>
    rw [splitLines]
    cases h : splitLines rest with
    | nil => simp
    | cons l ls =>
      simp only [h]
      split <;> simp

lemma hexChar_isHex : ∀ v : Fin 16, isHexChar (hexChar v.val) = true := by decide

lemma hexChar_variant : ∀ v : Fin 16,
    hexChar ((v.val &&& 3) ||| 8) = '8' ∨ hexChar ((v.val &&& 3) ||| 8) = '9'
    ∨ hexChar ((v.val &&& 3) ||| 8) = 'a' ∨ hexChar ((v.val &&& 3) ||| 8) = 'b' := by decide

lemma string_data_append (a b : String) : (a ++ b).data = a.data ++ b.data := by
  cases a; cases b; rfl

lemma urn_injective : Function.Injective urn := by
  intro a b h
  have h2 := congrArg String.data h
  rw [urn, urn, string_data_append, string_data_append] at h2
  have h3 := List.append_cancel_left h2
  cases a; cases b
  exact congrArg String.mk h3

lemma replaceFirstZ_append (body repl : List Char) (h : 'Z' ∉ body) :
    replaceFirstZ (body ++ ['Z']) repl = body ++ repl := by
  induction body with
  | nil => simp [replaceFirstZ]
  | cons c rest ih =>
    simp only [List.mem_cons, not_or] at h
    rw [List.cons_append, replaceFirstZ, if_neg (fun hc => h.1 hc.symm)]
    rw [ih h.2, List.cons_append]

lemma lastChar_append (l1 l2 : List Char) (h : l2 ≠ []) :
    lastChar (l1 ++ l2) = lastChar l2 := by
  induction l1 with
  | nil => rfl
  | cons c rest ih =>
    rw [List.cons_append]
    have hstep : lastChar (c :: (rest ++ l2)) = lastChar (rest ++ l2) := by
      cases hr : rest ++ l2 with
      | nil => exact absurd (List.append_eq_nil.mp hr).2 h
      | cons d ds => rfl
    rw [hstep, ih]

lemma padStart2_data_ne_nil (s : String) : (padStart2 s).data ≠ [] := by
  rw [padStart2]
  split
  · intro hnil
    have hlen : s.length = 0 := by
      show s.data.length = 0
      rw [hnil]
      rfl
    omega
  · split
    · intro hnil
      rw [string_data_append] at hnil
      exact absurd (List.append_eq_nil.mp hnil).1 (by decide)
    · decide

set_option maxRecDepth 100000 in
lemma padStart2_min_last : ∀ m : Fin 60,
    (lastChar (padStart2 (toString m.val)).data).isSome = true
    ∧ (lastChar (padStart2 (toString m.val)).data).all (fun c => c ≠ 'Z') = true := by decide

lemma enum_map_fst_fun {α β : Type} (l : List α) (f : Nat → β) :
    l.enum.map (fun p => f p.1) = (List.range l.length).map f := by
  rw [show (fun p : Nat × α => f p.1) = f ∘ Prod.fst from rfl, ← List.map_map,
    List.enum_map_fst]

lemma map_enum_eq_map_range {α β : Type} (l : List α) (f : Nat × α → β) (g : Nat → β)
    (hfg : ∀ p : Nat × α, f p = g p.1) :
    l.enum.map f = (List.range l.length).map g := by
  rw [show f = (fun p => g p.1) from funext hfg]
  exact enum_map_fst_fun l g

lemma fst_lt_of_mem_enum {α : Type} {l : List α} {p : Nat × α} (h : p ∈ l.enum) :
    p.1 < l.length := by
  have h1 : p.1 ∈ l.enum.map Prod.fst := List.mem_map_of_mem Prod.fst h
  rw [List.enum_map_fst] at h1
  exact List.mem_range.mp h1

/-- The identifier-supply indices used as entry `fullUrl`s, in entry-list
order: Composition, Patient, Practitioner, the medication ids, Condition,
and the Binary id when an attachment is present. -/
def entryIdx (n : Nat) (att : Bool) (c0 : Nat) : List Nat :=
  [c0, c0 + 1, c0 + 2] ++ (List.range n).map (fun i => c0 + 4 + i) ++ [c0 + 3]
    ++ (if att then [c0 + 4 + n] else [])

lemma count_map_inj_urn (gen : Nat → String) (hgen : Function.Injective gen)
    (L : List Nat) (j : Nat) :
    (L.map (fun k => urn (gen k))).count (urn (gen j)) = L.count j := by
  have hinj : Function.Injective (fun k => urn (gen k)) :=
    fun a b hab => hgen (urn_injective hab)
  exact List.count_map_of_injective L _ hinj j

lemma count_range_shifted_mem (n c i : Nat) (hi : i < n) :
    ((List.range n).map (fun k => c + k)).count (c + i) = 1 := by
  have hinj : Function.Injective (fun k : Nat => c + k) := by
    intro a b hab
    simp only at hab
    omega
  rw [List.count_map_of_injective _ _ hinj]
  exact List.count_eq_one_of_mem (List.nodup_range n) (List.mem_range.mpr hi)

lemma count_range_shifted_zero (n c j : Nat) (hj : ∀ i, i < n → j ≠ c + i) :
    ((List.range n).map (fun k => c + k)).count j = 0 := by
  rw [List.count_eq_zero]
  intro hmem
  rw [List.mem_map] at hmem
  obtain ⟨i, hi, hij⟩ := hmem
  exact hj i (List.mem_range.mp hi) hij.symm

lemma entryIdx_count_one (n : Nat) (att : Bool) (c0 j : Nat)
    (hj : j = c0 + 1 ∨ j = c0 + 2 ∨ j = c0 + 3 ∨ (∃ i, i < n ∧ j = c0 + 4 + i)
      ∨ (att = true ∧ j = c0 + 4 + n)) :
    (entryIdx n att c0).count j = 1 := by
  rw [entryIdx]
  rcases hj with h | h | h | ⟨i, hi, h⟩ | ⟨hatt, h⟩
  · subst h
    simp only [List.count_append, count_range_shifted_zero n (c0+4) (c0+1) (by omega)]
    cases att <;>
      simp only [if_true, if_false, Bool.false_eq_true, List.count_cons, List.count_nil,
        beq_iff_eq] <;> split_ifs <;> omega
  · subst h
    simp only [List.count_append, count_range_shifted_zero n (c0+4) (c0+2) (by omega)]
    cases att <;>
      simp only [if_true, if_false, Bool.false_eq_true, List.count_cons, List.count_nil,
        beq_iff_eq] <;> split_ifs <;> omega
  · subst h
    simp only [List.count_append, count_range_shifted_zero n (c0+4) (c0+3) (by omega)]
    cases att <;>
      simp only [if_true, if_false, Bool.false_eq_true, List.count_cons, List.count_nil,
        beq_iff_eq] <;> split_ifs <;> omega
  · subst h
    simp only [List.count_append, count_range_shifted_mem n (c0+4) i hi]
    cases att <;>
      simp only [if_true, if_false, Bool.false_eq_true, List.count_cons, List.count_nil,
        beq_iff_eq] <;> split_ifs <;> omega
  · subst h
    subst hatt
    simp only [List.count_append, count_range_shifted_zero n (c0+4) (c0+4+n) (by omega),
      if_true]
    simp only [List.count_cons, List.count_nil, beq_iff_eq]
    split_ifs <;> omega

lemma mkBundle_fullUrls (fs : FormState) (gen : Nat → String) (now : String) (c0 : Nat) :
    (mkBundle fs gen now c0).entry.map (fun e => e.fullUrl)
      = (entryIdx fs.medications.length fs.attachmentBase64.isSome c0).map
          (fun j => urn (gen j)) := by
  cases hA : fs.attachmentBase64 with
  | none =>
    simp only [mkBundle, entryIdx, hA, List.map_append, List.map_map, List.map_cons,
      List.map_nil, Option.isSome_none, if_neg Bool.false_ne_true, List.append_nil,
      List.append_assoc]
    refine congrArg₂ _ rfl (congrArg₂ _ ?_ rfl)
    exact map_enum_eq_map_range _ _ _ (fun p => rfl)
  | some b64 =>
    simp only [mkBundle, entryIdx, hA, List.map_append, List.map_map, List.map_cons,
      List.map_nil, Option.isSome_some, if_pos rfl, List.append_assoc]
    refine congrArg₂ _ rfl (congrArg₂ _ ?_ rfl)
    exact map_enum_eq_map_range _ _ _ (fun p => rfl)

lemma bundleRefs_cases (fs : FormState) (gen : Nat → String) (now : String) (c0 : Nat)
    (ref : String) (h : ref ∈ bundleRefs (mkBundle fs gen now c0)) :
    ref = urn (gen (c0 + 1)) ∨ ref = urn (gen (c0 + 2)) ∨ ref = urn (gen (c0 + 3))
    ∨ (∃ i, i < fs.medications.length ∧ ref = urn (gen (c0 + 4 + i)))
    ∨ (fs.attachmentBase64.isSome = true
        ∧ ref = urn (gen (c0 + 4 + fs.medications.length))) := by
  cases hA : fs.attachmentBase64 with
  | none =>
    rw [bundleRefs, mkBundle] at h
    simp only [hA, Option.isSome_none, if_neg Bool.false_ne_true, List.map_append,
      List.map_cons, List.map_nil, List.map_map, List.append_nil, List.flatMap_append,
      Resource.refs, List.mem_append, List.mem_cons, List.mem_map, List.mem_flatMap,
      List.not_mem_nil, or_false, List.flatMap_cons, List.flatMap_nil] at h
    rcases h with ((h12 | ⟨p, hp, hs⟩) | ⟨a, ⟨p, hp, ha⟩, href⟩) | h1
    · rcases h12 with h | h
      · exact Or.inl h
      · exact Or.inr (Or.inl h)
    · exact Or.inr (Or.inr (Or.inr (Or.inl ⟨p.1, fst_lt_of_mem_enum hp, hs.symm⟩)))
    · subst ha
      simp only [Function.comp, mkMedRes, List.mem_cons, List.mem_map, List.not_mem_nil,
        or_false] at href
      rcases href with h | h | ⟨x, rfl, hxr⟩
      · exact Or.inl h
      · exact Or.inr (Or.inl h)
      · exact Or.inr (Or.inr (Or.inl hxr.symm))
    · exact Or.inl h1
  | some b64 =>
    rw [bundleRefs, mkBundle] at h
    simp only [hA, Option.isSome_some, if_pos rfl, List.map_append,
      List.map_cons, List.map_nil, List.map_map, List.append_nil, List.flatMap_append,
      Resource.refs, List.mem_append, List.mem_cons, List.mem_map, List.mem_flatMap,
      List.not_mem_nil, or_false, List.flatMap_cons, List.flatMap_nil] at h
    rcases h with ((h12 | hsec) | ⟨a, ⟨p, hp, ha⟩, href⟩) | h1
    · rcases h12 with h | h
      · exact Or.inl h
      · exact Or.inr (Or.inl h)
    · rcases hsec with ⟨p, hp, hs⟩ | hbin
      · exact Or.inr (Or.inr (Or.inr (Or.inl ⟨p.1, fst_lt_of_mem_enum hp, hs.symm⟩)))
      · simp only [if_true, List.mem_singleton] at hbin
        obtain ⟨a, rfl, har⟩ := hbin
        exact Or.inr (Or.inr (Or.inr (Or.inr ⟨by simp [hA], har.symm⟩)))
    · subst ha
      simp only [Function.comp, mkMedRes, List.mem_cons, List.mem_map, List.not_mem_nil,
        or_false] at href
      rcases href with h | h | ⟨x, rfl, hxr⟩
      · exact Or.inl h
      · exact Or.inr (Or.inl h)
      · exact Or.inr (Or.inr (Or.inl hxr.symm))
    · exact Or.inl h1

lemma buildBundle_ok {fs : FormState} {gen : Nat → String} {now : String} {c0 : Nat}
    {b : Bundle} {c1 : Nat} (h : buildBundle fs gen now c0 = (.ok b, c1)) :
    validateFS fs = none ∧ b = mkBundle fs gen now c0 := by
  rw [buildBundle] at h
  cases hv : validateFS fs with
  | some e =>
    rw [hv] at h
    exact absurd (congrArg Prod.fst h) (by simp)
  | none =>
    rw [hv] at h
    have h1 := congrArg Prod.fst h
    simp only [Prod.fst] at h1
    refine ⟨rfl, ?_⟩
    cases h1
    rfl

lemma uuid_data (rand : Nat → Fin 16) : (uuidv4 rand).data =
  [hexChar (rand 0).val,
   hexChar (rand 1).val,
   hexChar (rand 2).val,
   hexChar (rand 3).val,
   hexChar (rand 4).val,
   hexChar (rand 5).val,
   hexChar (rand 6).val,
   hexChar (rand 7).val,
   '-',
   hexChar (rand 8).val,
   hexChar (rand 9).val,
   hexChar (rand 10).val,
   hexChar (rand 11).val,
   '-',
   '4',
   hexChar (rand 12).val,
   hexChar (rand 13).val,
   hexChar (rand 14).val,
   '-',
   hexChar (((rand 15).val &&& 3) ||| 8),
   hexChar (rand 16).val,
   hexChar (rand 17).val,
   hexChar (rand 18).val,
   '-',
   hexChar (rand 19).val,
   hexChar (rand 20).val,
   hexChar (rand 21).val,
   hexChar (rand 22).val,
   hexChar (rand 23).val,
   hexChar (rand 24).val,
   hexChar (rand 25).val,
   hexChar (rand 26).val,
   hexChar (rand 27).val,
   hexChar (rand 28).val,
   hexChar (rand 29).val,
   hexChar (rand 30).val] := rfl

/-! ### Claim theorems -/

/-- C1: referential closure.  For every document assembled by `buildBundle`
from a form state that passed validation, and for every `urn:uuid:`
reference string appearing in any of its records, exactly one entry of the
entry list has that string as its `fullUrl`.  The hypothesis `hgen`
expresses the identifier-uniqueness premise (distinct `uuidv4()` draws
within one run). -/
theorem claim_referential_closure (fs : FormState) (gen : Nat → String) (now : String)
    (c0 : Nat) (b : Bundle) (c1 : Nat) (hgen : Function.Injective gen)
    (hok : buildBundle fs gen now c0 = (.ok b, c1)) :
    ∀ ref ∈ bundleRefs b, (b.entry.map (fun e => e.fullUrl)).count ref = 1 := by
  obtain ⟨hval, hb⟩ := buildBundle_ok hok
  subst hb
  intro ref href
  rw [mkBundle_fullUrls]
  rcases bundleRefs_cases fs gen now c0 ref href with h | h | h | ⟨i, hi, h⟩ | ⟨hatt, h⟩ <;>
    subst h <;> rw [count_map_inj_urn gen hgen]
  · exact entryIdx_count_one _ _ _ _ (Or.inl rfl)
  · exact entryIdx_count_one _ _ _ _ (Or.inr (Or.inl rfl))
  · exact entryIdx_count_one _ _ _ _ (Or.inr (Or.inr (Or.inl rfl)))
  · exact entryIdx_count_one _ _ _ _ (Or.inr (Or.inr (Or.inr (Or.inl ⟨i, hi, rfl⟩))))
  · exact entryIdx_count_one _ _ _ _ (Or.inr (Or.inr (Or.inr (Or.inr ⟨hatt, rfl⟩))))

/-- C1 witness: the patient reference of the default form state resolves to
exactly one entry. -/
theorem claim_referential_closure_witness :
    ((mkBundle fs0 gen0 "t" 0).entry.map (fun e => e.fullUrl)).count (urn (gen0 1)) = 1 :=
  claim_referential_closure fs0 gen0 "t" 0 (mkBundle fs0 gen0 "t" 0) 8
    gen0_injective rfl (urn (gen0 1)) (by decide)

/-- C2: canonical entry ordering.  Every assembled document's entry kinds
are Composition, Patient, Practitioner, one MedicationRequest per input
medication, Condition, and a Binary entry exactly when an attachment was
supplied; moreover the order entries (positions 3..3+n-1) are built from
the input items in input order. -/
theorem claim_canonical_order (fs : FormState) (gen : Nat → String) (now : String)
    (c0 : Nat) (b : Bundle) (c1 : Nat)
    (hok : buildBundle fs gen now c0 = (.ok b, c1)) :
    b.entry.map (fun e => e.resource.kind)
      = [RKind.composition, RKind.patient, RKind.practitioner]
        ++ List.replicate fs.medications.length RKind.medicationRequest
        ++ [RKind.condition]
        ++ (if fs.attachmentBase64.isSome then [RKind.binary] else [])
    ∧ (b.entry.drop 3).take fs.medications.length
        = fs.medications.enum.map (fun p =>
            { fullUrl := urn (gen (c0 + 4 + p.1))
              resource := Resource.medicationRequest
                (mkMedRes fs (gen (c0 + 1)) (gen (c0 + 2)) (gen (c0 + 3))
                  (gen (c0 + 4 + p.1)) p.2) }) := by
  obtain ⟨hval, hb⟩ := buildBundle_ok hok
  subst hb
  constructor
  · cases hA : fs.attachmentBase64 with
    | none =>
      simp only [mkBundle, hA, Option.isSome_none, if_neg Bool.false_ne_true,
        List.map_append, List.map_cons, List.map_nil, List.map_map, List.append_nil,
        Resource.kind]
      congr 1
      congr 1
      exact (map_enum_eq_map_range _ _ (fun _ => RKind.medicationRequest)
        (fun p => rfl)).trans (by rw [List.map_const', List.length_range])
    | some b64 =>
      simp only [mkBundle, hA, Option.isSome_some, if_pos rfl,
        List.map_append, List.map_cons, List.map_nil, List.map_map, List.append_nil,
        Resource.kind]
      congr 1
      congr 1
      congr 1
      exact (map_enum_eq_map_range _ _ (fun _ => RKind.medicationRequest)
        (fun p => rfl)).trans (by rw [List.map_const', List.length_range])
  · simp only [mkBundle, List.cons_append, List.nil_append, List.drop_succ_cons,
      List.drop_zero]
    rw [List.append_assoc]
    rw [List.take_left' (by simp [List.enum_length])]
    rw [List.map_map]
    rfl

/-- C2 witness: the kind sequence of the default one-medication,
no-attachment form state. -/
theorem claim_canonical_order_witness :
    (mkBundle fs0 gen0 "t" 0).entry.map (fun e => e.resource.kind)
      = [RKind.composition, RKind.patient, RKind.practitioner]
        ++ List.replicate fs0.medications.length RKind.medicationRequest
        ++ [RKind.condition]
        ++ (if fs0.attachmentBase64.isSome then [RKind.binary] else []) :=
  (claim_canonical_order fs0 gen0 "t" 0 (mkBundle fs0 gen0 "t" 0) 8 rfl).1

/-- C3: medication representation exclusivity (the gpt.js variant, the only
one with a medication-code input).  The concept is coded exactly when the
code is supplied and non-blank after trimming, free text exactly otherwise
(never both, never neither), and a coded concept never carries an empty
code. -/
theorem claim_medication_exclusivity (mc : Option String) (mt : String) :
    ((gptMedicationConcept mc mt).coding.isSome = (jsTrim (mc.getD "") != ""))
    ∧ ((gptMedicationConcept mc mt).text.isSome = (jsTrim (mc.getD "") == ""))
    ∧ (((gptMedicationConcept mc mt).coding.getD []).all (fun cd => cd.code != "") = true)
    ∧ ((gptMedicationConcept mc mt).text.getD mt = mt) := by
  have htrim : jsTrim "" = "" := by decide
  cases mc with
  | none => refine ⟨?_, ?_, ?_, rfl⟩ <;> simp [gptMedicationConcept, htrim]
  | some c =>
    by_cases h1 : c = ""
    · subst h1
      refine ⟨?_, ?_, ?_, ?_⟩ <;> simp [gptMedicationConcept, htrim]
    · by_cases h2 : jsTrim c = ""
      · refine ⟨?_, ?_, ?_, ?_⟩ <;> simp [gptMedicationConcept, h1, h2]
      · refine ⟨?_, ?_, ?_, ?_⟩ <;> simp [gptMedicationConcept, h1, h2]

/-- C4 counterexample: the claim "the timing sub-block is attached iff
frequency or period is non-null" fails on a medication whose frequency is
the number `0`: the frequency is non-null, yet the JS truthiness test
`m.frequency || m.period` drops the timing block. -/
theorem claim_dosage_cex :
    medFreqZero.frequency ≠ none ∧ medFreqZero.period = none
    ∧ (mkDosage medFreqZero).timing = none :=
  ⟨by decide, rfl, by decide⟩

/-- C4 amended: each dosage sub-block is attached iff its source field is
truthy: non-empty for the instruction, route and method strings, non-null
AND non-zero for frequency/period (a zero is treated as absent, both for
attaching the timing block and for including the individual fields), with
the default period-unit `"d"` substituted when the unit string is empty. -/
theorem claim_dosage_amended (m : Medication) :
    ((mkDosage m).text = m.dosageText)
    ∧ ((mkDosage m).additionalInstruction.isSome = (m.additionalInstruction != ""))
    ∧ ((mkDosage m).timing.isSome = (truthyN m.frequency || truthyN m.period))
    ∧ ((mkDosage m).route.isSome = (m.route != ""))
    ∧ ((mkDosage m).method.isSome = (m.method != ""))
    ∧ ((mkDosage m).timing.all
        (fun t => (t.frequency == (if truthyN m.frequency then m.frequency else none))
          && (t.period == (if truthyN m.period then m.period else none))
          && (t.periodUnit == (if m.periodUnit ≠ "" then m.periodUnit else "d"))) = true) := by
  refine ⟨rfl, ?_, ?_, ?_, ?_, ?_⟩
  · simp only [mkDosage]; split <;> simp_all [bne_iff_ne]
  · simp only [mkDosage]
    by_cases hf : truthyN m.frequency <;> by_cases hp : truthyN m.period <;> simp [hf, hp]
  · simp only [mkDosage]; split <;> simp_all [bne_iff_ne]
  · simp only [mkDosage]; split <;> simp_all [bne_iff_ne]
  · simp only [mkDosage]
    by_cases hf : truthyN m.frequency <;> by_cases hp : truthyN m.period <;> simp [hf, hp]

/-- C5 counterexample: a form state violating two completeness rules
(empty practitioner name AND empty diagnosis text) yields only the first
rule's message; the surfaced text does not even mention the violated
Condition rule, refuting "surfaces every violated rule at once". -/
theorem claim_validation_report_cex :
    (fsTwoBad.practitioner.name = "" ∧ fsTwoBad.condition.text = "")
    ∧ buildBundle fsTwoBad gen0 "t" 0
        = (.error "Practitioner name and license are required.", 0)
    ∧ listContains "Condition".data
        "Practitioner name and license are required.".data = false :=
  ⟨⟨rfl, rfl⟩, rfl, by decide⟩

/-- The first-failure behaviour of the per-medication validation loop: if
every item before position `k` is complete and item `k` is incomplete,
the loop reports item `k` with its 1-based position. -/
lemma firstBadMed_eq (ms : List Medication) (k : Nat) (m : Medication) (base : Nat)
    (hk : ms[k]? = some m)
    (hgood : ∀ mj ∈ ms.take k, mj.medicationText ≠ "" ∧ mj.dosageText ≠ "")
    (hbad : m.medicationText = "" ∨ m.dosageText = "") :
    firstBadMed ms base
      = some ("Medication #" ++ toString (base + k + 1)
          ++ ": Drug name and Dosage Instructions are required.") := by
  induction ms generalizing k base with
  | nil => simp at hk
  | cons m0 rest ih =>
    cases k with
    | zero =>
      rw [List.getElem?_cons_zero] at hk
      injection hk with hk0
      subst hk0
      rw [firstBadMed]
      rw [if_pos (by rcases hbad with h | h <;> simp [h])]
    | succ j =>
      have h0 := hgood m0 (by simp)
      rw [firstBadMed, if_neg (by simp [h0.1, h0.2])]
      have hk' : rest[j]? = some m := by simpa using hk
      have hgood' : ∀ mj ∈ rest.take j, mj.medicationText ≠ "" ∧ mj.dosageText ≠ "" := by
        intro mj hmj
        exact hgood mj (by simp [hmj])
      rw [ih j (base + 1) hk' hgood']
      have harith : base + 1 + j + 1 = base + (j + 1) + 1 := by omega
      rw [harith]

/-- A medication row with a drug name but empty dosage instructions. -/
def medNoDosage : Medication :=
  ⟨"Ibuprofen 200 mg", "", "", none, none, "d", "", "", "", ""⟩

/-- A form state that is complete except that its second medication lacks
dosage instructions. -/
def fsItemBad : FormState :=
  { practitioner := ⟨"Dr. DEF", "21-1521-3828-3227"⟩
    patient := ⟨"ABC", "22-7225-4829-5255", "1981-01-12", "male", "+919818512600"⟩
    condition := ⟨"Abdominal pain", "21522001", "active"⟩
    composition := ⟨"Prescription record", "final", "2026-10-12"⟩
    medications := [med0, medNoDosage]
    attachmentBase64 := none }

/-- C5 amended: validation is deterministic but reports only the FIRST
violated rule, across the whole fixed check order: a violated practitioner
rule is the whole report; with the practitioner rule passing, a violated
patient rule is the whole report; then likewise for the diagnosis rule,
the document-meta rule, the non-empty-order-list rule, and finally the
per-item rule, which reports the FIRST incomplete item with its 1-based
position. -/
theorem claim_validation_report_amended (fs : FormState) (gen : Nat → String)
    (now : String) (c0 : Nat) :
    ((fs.practitioner.name = "" ∨ fs.practitioner.license = "") →
      (buildBundle fs gen now c0).1 = .error "Practitioner name and license are required.")
    ∧ ((fs.practitioner.name ≠ "" ∧ fs.practitioner.license ≠ ""
        ∧ (fs.patient.name = "" ∨ fs.patient.mrn = "" ∨ fs.patient.birthDate = "")) →
      (buildBundle fs gen now c0).1 = .error "Patient name, MRN and DOB are required.")
    ∧ (fs.practitioner.name ≠ "" → fs.practitioner.license ≠ ""
      → fs.patient.name ≠ "" → fs.patient.mrn ≠ "" → fs.patient.birthDate ≠ ""
      → fs.condition.text = ""
      → (buildBundle fs gen now c0).1 = .error "Condition/Diagnosis is required.")
    ∧ (fs.practitioner.name ≠ "" → fs.practitioner.license ≠ ""
      → fs.patient.name ≠ "" → fs.patient.mrn ≠ "" → fs.patient.birthDate ≠ ""
      → fs.condition.text ≠ ""
      → (fs.composition.title = "" ∨ fs.composition.date = "" ∨ fs.composition.status = "")
      → (buildBundle fs gen now c0).1 = .error "Prescription title, date and status are required.")
    ∧ (fs.practitioner.name ≠ "" → fs.practitioner.license ≠ ""
      → fs.patient.name ≠ "" → fs.patient.mrn ≠ "" → fs.patient.birthDate ≠ ""
      → fs.condition.text ≠ ""
      → fs.composition.title ≠ "" → fs.composition.date ≠ "" → fs.composition.status ≠ ""
      → fs.medications = []
      → (buildBundle fs gen now c0).1 = .error "Add at least one medication.")
    ∧ (fs.practitioner.name ≠ "" → fs.practitioner.license ≠ ""
      → fs.patient.name ≠ "" → fs.patient.mrn ≠ "" → fs.patient.birthDate ≠ ""
      → fs.condition.text ≠ ""
      → fs.composition.title ≠ "" → fs.composition.date ≠ "" → fs.composition.status ≠ ""
      → ∀ k m, fs.medications[k]? = some m
      → (∀ mj ∈ fs.medications.take k, mj.medicationText ≠ "" ∧ mj.dosageText ≠ "")
      → (m.medicationText = "" ∨ m.dosageText = "")
      → (buildBundle fs gen now c0).1
          = .error ("Medication #" ++ toString (k + 1)
              ++ ": Drug name and Dosage Instructions are required.")) := by
  refine ⟨?_, ?_, ?_, ?_, ?_, ?_⟩
  · intro h
    rcases h with h | h <;> simp [buildBundle, validateFS, h]
  · rintro ⟨h1, h2, h3⟩
    rcases h3 with h | h | h <;> simp [buildBundle, validateFS, h1, h2, h]
  · intro h1 h2 h3 h4 h5 h6
    simp [buildBundle, validateFS, h1, h2, h3, h4, h5, h6]
  · intro h1 h2 h3 h4 h5 h6 h7
    rcases h7 with h | h | h <;> simp [buildBundle, validateFS, h1, h2, h3, h4, h5, h6, h]
  · intro h1 h2 h3 h4 h5 h6 h7 h8 h9 h10
    simp [buildBundle, validateFS, h1, h2, h3, h4, h5, h6, h7, h8, h9, h10]
  · intro h1 h2 h3 h4 h5 h6 h7 h8 h9 k m hk hgood hbad
    have hne : fs.medications ≠ [] := by
      intro hnil
      rw [hnil] at hk
      simp at hk
    have hval : validateFS fs
        = some ("Medication #" ++ toString (k + 1)
            ++ ": Drug name and Dosage Instructions are required.") := by
      rw [validateFS]
      rw [if_neg (by simp [h1, h2]), if_neg (by simp [h3, h4, h5]), if_neg (by simp [h6]),
        if_neg (by simp [h7, h8, h9]), if_neg (by simp [hne])]
      have hfb := firstBadMed_eq fs.medications k m 0 hk hgood hbad
      rw [hfb]
      have harith : 0 + k + 1 = k + 1 := by omega
      rw [harith]
    simp [buildBundle, hval]

/-- C5 witness: a form state whose only violation is the second
medication's empty dosage is reported by the per-item rule naming
medication 2 and nothing else. -/
theorem claim_validation_report_witness :
    (buildBundle fsItemBad gen0 "t" 0).1
      = .error ("Medication #" ++ toString (1 + 1)
          ++ ": Drug name and Dosage Instructions are required.") :=
  (claim_validation_report_amended fsItemBad gen0 "t" 0).2.2.2.2.2
    (by decide) (by decide) (by decide) (by decide) (by decide) (by decide)
    (by decide) (by decide) (by decide) 1 medNoDosage rfl (by decide) (Or.inr rfl)

/-- C6: validation rejection atomicity.  A form state rejected by the
validation gate produces no document and draws no identifier (the returned
supply counter equals the initial one, and the gate runs before any draw),
and an empty patient name (with the practitioner rule passing) is reported
by the message naming "Patient name". -/
theorem claim_validation_atomic (fs : FormState) (gen : Nat → String) (now : String)
    (c0 : Nat) (e : String) (he : validateFS fs = some e) :
    buildBundle fs gen now c0 = (.error e, c0)
    ∧ (fs.practitioner.name ≠ "" → fs.practitioner.license ≠ "" → fs.patient.name = "" →
        e = "Patient name, MRN and DOB are required.") := by
  constructor
  · simp [buildBundle, he]
  · intro h1 h2 h3
    simp [validateFS, h1, h2, h3] at he
    exact he.symm

/-- C6 witness: the empty-patient-name form state is rejected with the
patient message, no document, counter untouched. -/
theorem claim_validation_atomic_witness :
    buildBundle fsBadPatient gen0 "t" 0
      = (.error "Patient name, MRN and DOB are required.", 0) :=
  (claim_validation_atomic fsBadPatient gen0 "t" 0
    "Patient name, MRN and DOB are required." rfl).1

/-- C7 counterexample: the App.js builder (src/unnamed/part_000) stamps the
envelope with `new Date().toISOString()` directly, so the assembled
document's timestamp is the raw UTC string ending in the bare `Z` marker,
refuting "never a bare UTC Z marker" for every assembled document. -/
theorem claim_timestamp_cex :
    (buildBundle fs0 gen0 "2026-10-12T10:20:30.000Z" 0).1
      = .ok (mkBundle fs0 gen0 "2026-10-12T10:20:30.000Z" 0)
    ∧ lastChar (mkBundle fs0 gen0 "2026-10-12T10:20:30.000Z" 0).timestamp.data
      = some 'Z' :=
  ⟨rfl, by decide⟩

/-- C7 amended: timestamps produced through `getISOWithOffset` (the gpt.js
builder's envelope timestamps) replace the trailing `Z` of the UTC ISO
string with the signed `hh:mm` local offset and never end in `Z`; the
App.js builder instead emits the bare-`Z` UTC string (see the
counterexample). -/
theorem claim_timestamp_amended (body : List Char) (tz : Int) (h : 'Z' ∉ body) :
    getISOWithOffset (body ++ ['Z']) tz = body ++ tzOffsetRepl tz
    ∧ lastChar (getISOWithOffset (body ++ ['Z']) tz) ≠ some 'Z' := by
  have heq : getISOWithOffset (body ++ ['Z']) tz = body ++ tzOffsetRepl tz :=
    replaceFirstZ_append body (tzOffsetRepl tz) h
  refine ⟨heq, ?_⟩
  rw [heq]
  have hB : (padStart2 (toString (tz.natAbs % 60))).data ≠ [] := padStart2_data_ne_nil _
  have hsplit : tzOffsetRepl tz =
      ((if tz > 0 then '-' else '+') :: (padStart2 (toString (tz.natAbs / 60))).data ++ [':'])
        ++ (padStart2 (toString (tz.natAbs % 60))).data := by
    simp [tzOffsetRepl]
  have hrepl_ne : tzOffsetRepl tz ≠ [] := by rw [hsplit]; simp
  rw [lastChar_append body _ hrepl_ne, hsplit, lastChar_append _ _ hB]
  have hm := padStart2_min_last ⟨tz.natAbs % 60, Nat.mod_lt _ (by omega)⟩
  revert hm
  cases hl : lastChar (padStart2 (toString (tz.natAbs % 60))).data with
  | none => simp
  | some c => simp_all

/-- C7 witness: a concrete UTC instant rendered at offset +05:30
(`getTimezoneOffset() = -330`). -/
theorem claim_timestamp_witness :
    getISOWithOffset ("2026-10-12T04:50:30.000".data ++ ['Z']) (-330)
      = "2026-10-12T04:50:30.000".data ++ tzOffsetRepl (-330)
    ∧ lastChar (getISOWithOffset ("2026-10-12T04:50:30.000".data ++ ['Z']) (-330))
      ≠ some 'Z' :=
  claim_timestamp_amended "2026-10-12T04:50:30.000".data (-330) (by decide)

/-- C8: line-diff postcondition.  `lineDiff A B` has exactly
`max (lineCount A) (lineCount B)` rows, and row `i` holds line `i` of each
side (empty string when the side has no line `i`) with an equal flag that
is true iff the two strings are identical — a purely positional
comparison. -/
theorem claim_linediff_rows (A B : String) :
    (lineDiff A B).length = max (lineCount A) (lineCount B)
    ∧ ∀ i, i < (lineDiff A B).length →
        (lineDiff A B)[i]? =
          some { leftLine := (linesOf A).getD i "", rightLine := (linesOf B).getD i ""
                 same := (linesOf A).getD i "" == (linesOf B).getD i "" }
        ∧ (((linesOf A).getD i "" == (linesOf B).getD i "") = true
            ↔ (linesOf A).getD i "" = (linesOf B).getD i "") := by
  refine ⟨by simp [lineDiff, lineCount], ?_⟩
  intro i hi
  simp only [lineDiff, List.length_map, List.length_range] at hi
  refine ⟨?_, beq_iff_eq⟩
  simp [lineDiff, List.getElem?_map, List.getElem?_range, hi]

/-- C8 witness: row 0 of `diff("a\nb", "a")`. -/
theorem claim_linediff_rows_witness :
    (lineDiff "a\nb" "a")[0]? =
      some { leftLine := (linesOf "a\nb").getD 0 "", rightLine := (linesOf "a").getD 0 ""
             same := (linesOf "a\nb").getD 0 "" == (linesOf "a").getD 0 "" } :=
  ((claim_linediff_rows "a\nb" "a").2 0 (by decide)).1

/-- C9: identifier format.  For every random source, `uuidv4` returns a
36-character string in the 8-4-4-4-12 lowercase-hex grouping whose third
group begins with the version nibble `4`, whose fourth group begins with a
variant nibble in `{8,9,a,b}`, and whose remaining characters are hex
digits. -/
theorem claim_uuid_format (rand : Nat → Fin 16) : uuidFormatOk (uuidv4 rand) = true := by
  rw [uuidFormatOk, uuid_data]
  simp [allHex, hexChar_isHex, hexChar_variant (rand 15)]

/-- C10: diff never returns zero rows; in particular `diff("", "")` is a
single row of two empty strings marked equal, because splitting the empty
text yields one empty line (`lineCount "" = 1`). -/
theorem claim_diff_nonempty :
    lineDiff "" "" = [{ leftLine := "", rightLine := "", same := true }]
    ∧ lineCount "" = 1
    ∧ ∀ A B : String, 1 ≤ (lineDiff A B).length := by
  refine ⟨by decide, rfl, ?_⟩
  intro A B
  have h1 : 0 < (splitLines A.data).length := splitLines_length_pos A.data
  have h2 : (lineDiff A B).length = max (lineCount A) (lineCount B) := by
    simp [lineDiff, lineCount]
  have h3 : lineCount A = (splitLines A.data).length := by
    simp [lineCount, linesOf]
  omega

end DischargeRx
